import Mathlib

/-!
Shallow embedding of the session-analytics logic of the debate-practice
application (source files: `src/components/Dashboard.tsx`,
`src/components/PersonaErrorBoundary.tsx`, and the archetype-card component).

Numeric conventions: JavaScript numbers are modelled by `ℤ` (session scores
are integers) and exact rational arithmetic `ℚ` for the averages; the claims
under study state their formulas in exact arithmetic, where the two agree.
`Math.round` rounds half-way cases toward positive infinity, i.e.
`Math.round x = ⌊x + 1/2⌋` for finite `x`.  The one place where IEEE
non-finite values are observable (division by a zero average) is modelled
explicitly by the `JsNum` type.
-/

/-- Result of `Math.round` applied to a finite IEEE double, in exact
arithmetic: round half toward positive infinity. -/
def jsRound (q : ℚ) : ℤ := ⌊q + 1/2⌋

/-- One completed practice session (`SessionHistoryItem` in `src/types`):
`score` is always present, the three sub-scores are optional. -/
structure SessionHistoryItem where
  id : String
  topic : String
  date : ℤ
  durationSeconds : ℤ
  score : ℤ
  vocabularyScore : Option ℤ
  clarityScore : Option ℤ
  persuasionScore : Option ℤ
deriving DecidableEq

/-- Arithmetic mean of `score` over a list of sessions, as an exact rational
(`reduce((sum, s) => sum + s.score, 0) / length` in the source). -/
def meanScore (l : List SessionHistoryItem) : ℚ :=
  (l.map (fun s => (s.score : ℚ))).sum / (l.length : ℚ)

/-- A JavaScript number as observed at the end of the improvement-rate
computation: a finite (rounded) value, an infinity, or NaN. -/
inductive JsNum where
  | finite (val : ℤ)
  | posInf
  | negInf
  | nan
deriving DecidableEq

/-- Embedding of `calculateImprovementRate` (Dashboard.tsx lines 61-71):
if fewer than 4 sessions, 0; otherwise split at `halfPoint =
Math.floor(length / 2)` into `recentHalf = slice(0, halfPoint)` and
`olderHalf = slice(halfPoint)`, and return
`Math.round(((recentAvg - olderAvg) / olderAvg) * 100)`.  The source guards
nothing: when `olderAvg = 0` the IEEE division yields `±Infinity` (or `NaN`
when the numerator is also 0), `* 100` and `Math.round` preserve it, which
the embedding records in the non-finite `JsNum` constructors. -/
def calculateImprovementRate (history : List SessionHistoryItem) : JsNum :=
  if history.length < 4 then .finite 0
  else
    let halfPoint := history.length / 2
    let recentAvg := meanScore (history.take halfPoint)
    let olderAvg := meanScore (history.drop halfPoint)
    if olderAvg = 0 then
      if 0 < recentAvg - olderAvg then .posInf
      else if recentAvg - olderAvg < 0 then .negInf
      else .nan
    else .finite (jsRound ((recentAvg - olderAvg) / olderAvg * 100))

/-- Dashboard.tsx line 230: the `↑ / ↓ / → vs earlier sessions` indicator
badge is rendered only under the guard `history.length >= 4`. -/
def showsImprovementIndicator (history : List SessionHistoryItem) : Bool :=
  decide (4 ≤ history.length)

/-- Helper to build a session whose only distinguishing datum is `score`. -/
def mkSession (id : String) (score : ℤ) : SessionHistoryItem :=
  ⟨id, "topic", 0, 0, score, none, none, none⟩

/-- The 4-session history with scores [80, 60, 40, 20], most-recent-first. -/
def exHistory4 : List SessionHistoryItem :=
  [mkSession "a" 80, mkSession "b" 60, mkSession "c" 40, mkSession "d" 20]

/-- Claim C1: for every history with at least 4 sessions whose older half has
a nonzero mean, the improvement rate is `round(((recentAvg - olderAvg) /
olderAvg) * 100)`, where `recentAvg` is the mean score of the first
`⌊n/2⌋` entries and `olderAvg` the mean score of the remaining entries. -/
theorem c1_improvementRate_spec (history : List SessionHistoryItem)
    (h4 : 4 ≤ history.length)
    (hold : meanScore (history.drop (history.length / 2)) ≠ 0) :
    calculateImprovementRate history =
      .finite (jsRound ((meanScore (history.take (history.length / 2)) -
        meanScore (history.drop (history.length / 2))) /
        meanScore (history.drop (history.length / 2)) * 100)) := by
  rw [calculateImprovementRate]
  rw [if_neg (by omega)]
  simp only []
  rw [if_neg hold]

/-- Witness for C1: the spec's own example, the history with scores
[80, 60, 40, 20] most-recent-first, satisfies the hypotheses and yields
improvement rate 133. -/
theorem c1_improvementRate_witness :
    calculateImprovementRate exHistory4 = .finite 133 := by
  have h := c1_improvementRate_spec exHistory4 (by decide)
    (by norm_num [meanScore, exHistory4, mkSession])
  rw [h]
  norm_num [meanScore, exHistory4, mkSession, jsRound]

/-- A 4-session history whose older half scored 0 in both sessions while the
recent half scored 50: the unguarded division hits a zero denominator. -/
def exHistoryDiv0 : List SessionHistoryItem :=
  [mkSession "a" 50, mkSession "b" 50, mkSession "c" 0, mkSession "d" 0]

/-- Claim C2 (code bug): the improvement-rate computation does not handle a
zero older-half average by any explicit policy; on the history with scores
[50, 50, 0, 0] the IEEE division produces `+Infinity`, which `Math.round`
preserves and the code propagates to the caller. -/
theorem c2_improvementRate_div0_unguarded :
    calculateImprovementRate exHistoryDiv0 = .posInf := by
  norm_num [calculateImprovementRate, meanScore, exHistoryDiv0, mkSession]

/-- Embedding of the `winRate` computation (Dashboard.tsx lines 44-46):
`stats.totalSessions > 0 ? Math.round((totalSessions * 0.7) * 100) / 100 : 0`,
as a function of the total session count. -/
def winRate (totalSessions : ℕ) : ℚ :=
  if 0 < totalSessions then
    ((jsRound ((totalSessions : ℚ) * (7/10) * 100) : ℤ) : ℚ) / 100
  else 0

/-- Claim C3: for every total session count `n`, the win rate equals
`round(n * 0.7 * 100) / 100`, yields 0 when `n = 0`, and is non-decreasing
in `n`. -/
theorem c3_winRate_spec :
    winRate 0 = 0 ∧
    (∀ n : ℕ, winRate n = ((jsRound ((n : ℚ) * (7/10) * 100) : ℤ) : ℚ) / 100) ∧
    (∀ n m : ℕ, n ≤ m → winRate n ≤ winRate m) := by
  have hround : ∀ n : ℕ, jsRound ((n : ℚ) * (7/10) * 100) = 70 * n := by
    intro n
    have hq : (n : ℚ) * (7/10) * 100 = ((70 * n : ℤ) : ℚ) := by
      push_cast; ring
    rw [jsRound, hq, add_comm, Int.floor_add_int]
    norm_num
  have heq : ∀ n : ℕ, winRate n = 7 * n / 10 := by
    intro n
    rcases Nat.eq_zero_or_pos n with h0 | hpos
    · subst h0; simp [winRate]
    · rw [winRate, if_pos hpos, hround]
      push_cast; ring
  refine ⟨by simp [winRate], fun n => ?_, fun n m hnm => ?_⟩
  · rcases Nat.eq_zero_or_pos n with h0 | hpos
    · subst h0; norm_num [winRate, jsRound]
    · rw [winRate, if_pos hpos]
  · rw [heq, heq]
    have : (n : ℚ) ≤ (m : ℚ) := by exact_mod_cast hnm
    linarith

/-- Witness for C3: instantiating the monotonicity clause at the concrete
pair 2 ≤ 5 gives `winRate 2 ≤ winRate 5`. -/
theorem c3_winRate_witness : (2 : ℕ) ≤ 5 ∧ winRate 2 ≤ winRate 5 :=
  ⟨by decide, c3_winRate_spec.2.2 2 5 (by decide)⟩

/-- A 3-session history, below the 4-session threshold. -/
def exHistory3 : List SessionHistoryItem :=
  [mkSession "a" 90, mkSession "b" 10, mkSession "c" 50]

/-- Claim C5: for every history shorter than 4 sessions the improvement rate
is 0 and the `vs earlier sessions` indicator badge is not rendered. -/
theorem c5_improvementRate_short_history (history : List SessionHistoryItem)
    (hlen : history.length < 4) :
    calculateImprovementRate history = .finite 0 ∧
      showsImprovementIndicator history = false := by
  constructor
  · rw [calculateImprovementRate, if_pos hlen]
  · simp only [showsImprovementIndicator, decide_eq_false_iff_not]
    omega

/-- Witness for C5: the concrete 3-session history has improvement rate 0 and
shows no indicator. -/
theorem c5_improvementRate_short_history_witness :
    exHistory3.length < 4 ∧
      (calculateImprovementRate exHistory3 = .finite 0 ∧
        showsImprovementIndicator exHistory3 = false) :=
  ⟨by decide, c5_improvementRate_short_history exHistory3 (by decide)⟩

/-- Embedding of the Performance Score display (Dashboard.tsx lines 86-91):
`history.length > 0 ? Math.round(sum of scores / history.length) : 0`. -/
def overallAverageScore (history : List SessionHistoryItem) : ℤ :=
  if 0 < history.length then jsRound (meanScore history) else 0

/-- A 2-session history with scores 80 and 75: mean 77.5, displayed 78. -/
def exHistory2 : List SessionHistoryItem :=
  [mkSession "a" 80, mkSession "b" 75]

/-- Counterexample to claim C6 as stated: on the non-empty history with
scores [80, 75], the code shows 78 (`Math.round(155 / 2)`), which is not the
exact arithmetic mean 155/2 = 77.5. -/
theorem c6_overallAverage_counterexample :
    overallAverageScore exHistory2 = 78 ∧
      meanScore exHistory2 = 155 / 2 ∧
      ((overallAverageScore exHistory2 : ℤ) : ℚ) ≠ meanScore exHistory2 := by
  refine ⟨?_, ?_, ?_⟩ <;>
    norm_num [overallAverageScore, meanScore, exHistory2, mkSession, jsRound]

/-- Claim C6 (amended): for every non-empty history the overall average score
equals the arithmetic mean of the scores rounded to the nearest integer
(`Math.round`), and for the empty history it equals 0. -/
theorem c6_overallAverage_rounded_mean :
    (∀ history : List SessionHistoryItem, history ≠ [] →
      overallAverageScore history = jsRound (meanScore history)) ∧
    overallAverageScore [] = 0 := by
  refine ⟨fun history hne => ?_, by simp [overallAverageScore]⟩
  rw [overallAverageScore, if_pos (List.length_pos.mpr hne)]

/-- Witness for C6 (amended): on the non-empty history with scores [80, 75]
the displayed value is the rounded mean. -/
theorem c6_overallAverage_rounded_mean_witness :
    exHistory2 ≠ [] ∧
      overallAverageScore exHistory2 = jsRound (meanScore exHistory2) :=
  ⟨by decide, c6_overallAverage_rounded_mean.1 exHistory2 (by decide)⟩

/-- Dashboard.tsx line 49: `history.slice(0, 10)`. -/
def recentSessions (history : List SessionHistoryItem) : List SessionHistoryItem :=
  history.take 10

/-- The common shape of the three per-dimension averages (Dashboard.tsx
lines 50-58): `length > 0 ? Math.round(reduce((sum, s) => sum + (subScore ||
0), 0) / length) : 0` over a window of sessions. -/
def dimAverage (recent : List SessionHistoryItem)
    (subScore : SessionHistoryItem → Option ℤ) : ℤ :=
  if 0 < recent.length then
    jsRound ((recent.map (fun s => (((subScore s).getD 0 : ℤ) : ℚ))).sum /
      (recent.length : ℚ))
  else 0

/-- Embedding of `avgVocabulary` (Dashboard.tsx lines 50-52). -/
def avgVocabulary (history : List SessionHistoryItem) : ℤ :=
  dimAverage (recentSessions history) (fun s => s.vocabularyScore)

/-- Embedding of `avgClarity` (Dashboard.tsx lines 53-55). -/
def avgClarity (history : List SessionHistoryItem) : ℤ :=
  dimAverage (recentSessions history) (fun s => s.clarityScore)

/-- Embedding of `avgPersuasion` (Dashboard.tsx lines 56-58). -/
def avgPersuasion (history : List SessionHistoryItem) : ℤ :=
  dimAverage (recentSessions history) (fun s => s.persuasionScore)

/-- The window average exactly as the spec words it, over the list of
optional sub-score values in the window: `round(sum of (value or 0) divided
by the number of entries in the window)`, 0 for an empty window. -/
def windowAverage (vals : List (Option ℤ)) : ℤ :=
  if vals = [] then 0
  else jsRound ((vals.map (fun o => ((o.getD 0 : ℤ) : ℚ))).sum / (vals.length : ℚ))

theorem dimAverage_eq_windowAverage (recent : List SessionHistoryItem)
    (subScore : SessionHistoryItem → Option ℤ) :
    dimAverage recent subScore = windowAverage (recent.map subScore) := by
  by_cases hne : recent = []
  · subst hne; simp [dimAverage, windowAverage]
  · rw [dimAverage, if_pos (List.length_pos.mpr hne), windowAverage,
      if_neg (by simp [hne])]
    simp only [List.map_map, List.length_map]
    rfl

/-- A 3-session window whose `vocabularyScore` values are
[90, missing, 60], most-recent-first. -/
def exHistoryVocab : List SessionHistoryItem :=
  [{ mkSession "a" 70 with vocabularyScore := some 90 },
   mkSession "b" 70,
   { mkSession "c" 70 with vocabularyScore := some 60 }]

/-- Claim C4: each per-dimension recent average equals the spec's window
average (sum of present-or-0 values divided by the window length, rounded;
0 on an empty window) over the first 10 history entries, and on the window
with vocabulary scores [90, missing, 60] the vocabulary average is 50. -/
theorem c4_recentAverages_spec :
    (∀ history : List SessionHistoryItem,
      avgVocabulary history =
        windowAverage ((history.take 10).map (fun s => s.vocabularyScore))) ∧
    (∀ history : List SessionHistoryItem,
      avgClarity history =
        windowAverage ((history.take 10).map (fun s => s.clarityScore))) ∧
    (∀ history : List SessionHistoryItem,
      avgPersuasion history =
        windowAverage ((history.take 10).map (fun s => s.persuasionScore))) ∧
    avgVocabulary exHistoryVocab = 50 := by
  refine ⟨fun h => dimAverage_eq_windowAverage _ _,
    fun h => dimAverage_eq_windowAverage _ _,
    fun h => dimAverage_eq_windowAverage _ _, ?_⟩
  norm_num [avgVocabulary, dimAverage, recentSessions, exHistoryVocab,
    mkSession, jsRound]

/-- JavaScript `array.slice(0, w)` for an arbitrary integer end index `w`:
a negative `w` counts back from the end of the array (clamped at 0), a
non-negative `w` takes the first `w` elements (clamped at the length). -/
def jsSliceTo (w : ℤ) (l : List SessionHistoryItem) : List SessionHistoryItem :=
  if w < 0 then l.take ((l.length : ℤ) + w).toNat else l.take w.toNat

/-- The vocabulary average with the source's hard-coded window 10 of
`recentSessions` generalized to an arbitrary `recentWindow` argument `w`,
fed through JavaScript slice semantics.  The source performs no input
validation and contains no throw whatsoever, so the computation always
succeeds; the `Except` result type records that no error is ever produced. -/
def avgVocabularyWindowed (w : ℤ) (history : List SessionHistoryItem) :
    Except String ℤ :=
  Except.ok (dimAverage (jsSliceTo w history) (fun s => s.vocabularyScore))

theorem avgVocabularyWindowed_ten (history : List SessionHistoryItem) :
    avgVocabularyWindowed 10 history = .ok (avgVocabulary history) := by
  simp [avgVocabularyWindowed, avgVocabulary, jsSliceTo, recentSessions]

/-- A 3-session history with vocabulary scores [40, 50, 99]. -/
def exHistoryWindow : List SessionHistoryItem :=
  [{ mkSession "a" 70 with vocabularyScore := some 40 },
   { mkSession "b" 70 with vocabularyScore := some 50 },
   { mkSession "c" 70 with vocabularyScore := some 99 }]

/-- Counterexample to claim C8 as stated: with the out-of-constraint window
`recentWindow = -1` the computation does not fail with any error condition;
it silently coerces the window per JavaScript slice semantics (`slice(0, -1)`
drops the last entry, leaving the first 2 of 3 sessions) and returns the
ordinary value `round((40 + 50) / 2) = 45`. -/
theorem c8_invalidWindow_counterexample :
    (avgVocabularyWindowed (-1) exHistoryWindow).isOk = true ∧
      avgVocabularyWindowed (-1) exHistoryWindow = .ok 45 ∧
      jsSliceTo (-1) exHistoryWindow = exHistoryWindow.take 2 := by
  refine ⟨?_, ?_, ?_⟩ <;>
    norm_num [avgVocabularyWindowed, dimAverage, jsSliceTo, exHistoryWindow,
      mkSession, jsRound, Except.isOk, Except.toBool,
      show (2 : ℤ).toNat = 2 from rfl]

/-- Claim C8 (amended): the stats computation performs no validation of the
recent window: for every `recentWindow < 1` it still succeeds with an
ordinary value (the window silently coerced by slice semantics), and no
`InvalidArgument` condition is ever reported. -/
theorem c8_invalidWindow_silently_coerced (w : ℤ)
    (history : List SessionHistoryItem) (_hw : w < 1) :
    ∃ v : ℤ, avgVocabularyWindowed w history = .ok v :=
  ⟨_, rfl⟩

/-- Witness for C8 (amended): at the concrete window -1 and the concrete
3-session history the computation succeeds. -/
theorem c8_invalidWindow_silently_coerced_witness :
    (-1 : ℤ) < 1 ∧
      ∃ v : ℤ, avgVocabularyWindowed (-1) exHistoryWindow = .ok v :=
  ⟨by decide, c8_invalidWindow_silently_coerced (-1) exHistoryWindow (by decide)⟩

/-- Lowercasing of a string, character by character (`toLowerCase()` on the
ASCII range, which covers every keyword and name the source compares). -/
def strToLower (s : String) : String :=
  ⟨s.data.map Char.toLower⟩

/-- The four outcome categories of `getErrorMessage` in
`PersonaErrorBoundary.tsx` (lines 93-132), identified by which message/
description pair is produced. -/
inductive ErrCategory where
  | sceneLoad
  | calculation
  | dataIssue
  | generic
deriving DecidableEq

/-- JavaScript `message.includes(keyword)`: the keyword occurs contiguously
inside the character list. -/
def containsKw (kw : String) (m : List Char) : Bool :=
  decide (kw.data <:+: m)

/-- Embedding of the categorization performed by `getErrorMessage`
(PersonaErrorBoundary.tsx lines 101-131): lowercase the message, then test
`spline`/`3d`/`scene`, then `calculate`/`persona`, then `data`/`invalid`,
first match wins, otherwise generic. -/
def getErrorCategory (message : String) : ErrCategory :=
  let errorMessage := message.data.map Char.toLower
  if containsKw "spline" errorMessage || containsKw "3d" errorMessage ||
      containsKw "scene" errorMessage then .sceneLoad
  else if containsKw "calculate" errorMessage ||
      containsKw "persona" errorMessage then .calculation
  else if containsKw "data" errorMessage ||
      containsKw "invalid" errorMessage then .dataIssue
  else .generic

/-- Claim C7: the categorization is the fixed-order, first-match-wins,
case-insensitive keyword test, characterized case by case over every
message: (1) `"Failed to load Spline scene"` maps to 3D-scene load; (2) a
message containing both `data` and `spline` maps to 3D-scene load (the 3D
check precedes the data check); (3) any of spline/3d/scene yields 3D-scene
load; (4) absent those, any of calculate/persona yields the calculation
category; (5) absent all of the previous, any of data/invalid yields the
data category; (6) with none of the seven keywords the result is generic.
The six cases are exhaustive and pin the output on every input, so a
routine with a different check order cannot satisfy them. -/
theorem c7_errorCategory_spec :
    getErrorCategory "Failed to load Spline scene" = .sceneLoad ∧
    (∀ message : String,
      containsKw "data" (message.data.map Char.toLower) = true →
      containsKw "spline" (message.data.map Char.toLower) = true →
      getErrorCategory message = .sceneLoad) ∧
    (∀ message : String,
      (containsKw "spline" (message.data.map Char.toLower) = true ∨
        containsKw "3d" (message.data.map Char.toLower) = true ∨
        containsKw "scene" (message.data.map Char.toLower) = true) →
      getErrorCategory message = .sceneLoad) ∧
    (∀ message : String,
      containsKw "spline" (message.data.map Char.toLower) = false →
      containsKw "3d" (message.data.map Char.toLower) = false →
      containsKw "scene" (message.data.map Char.toLower) = false →
      (containsKw "calculate" (message.data.map Char.toLower) = true ∨
        containsKw "persona" (message.data.map Char.toLower) = true) →
      getErrorCategory message = .calculation) ∧
    (∀ message : String,
      containsKw "spline" (message.data.map Char.toLower) = false →
      containsKw "3d" (message.data.map Char.toLower) = false →
      containsKw "scene" (message.data.map Char.toLower) = false →
      containsKw "calculate" (message.data.map Char.toLower) = false →
      containsKw "persona" (message.data.map Char.toLower) = false →
      (containsKw "data" (message.data.map Char.toLower) = true ∨
        containsKw "invalid" (message.data.map Char.toLower) = true) →
      getErrorCategory message = .dataIssue) ∧
    (∀ message : String,
      (∀ kw ∈ ["spline", "3d", "scene", "calculate", "persona", "data",
        "invalid"], containsKw kw (message.data.map Char.toLower) = false) →
      getErrorCategory message = .generic) := by
  refine ⟨by decide, fun message h1 h2 => ?_, fun message hor => ?_,
    fun message hs h3 hsc hor => ?_, fun message hs h3 hsc hc hp hor => ?_,
    fun message hall => ?_⟩
  · rw [getErrorCategory]
    simp only [h2, Bool.true_or, if_true]
  · rw [getErrorCategory]
    rcases hor with h | h | h <;> simp [h]
  · rw [getErrorCategory]
    rcases hor with h | h <;> simp [hs, h3, hsc, h]
  · rw [getErrorCategory]
    rcases hor with h | h <;> simp [hs, h3, hsc, hc, hp, h]
  · rw [getErrorCategory]
    simp only [hall "spline" (by simp), hall "3d" (by simp),
      hall "scene" (by simp), hall "calculate" (by simp),
      hall "persona" (by simp), hall "data" (by simp),
      hall "invalid" (by simp), Bool.or_self]
    decide

/-- Witness for C7: three concrete messages, one per conditioned case: the
message `"bad DATA from Spline"` contains both `data` and `spline` and maps
to 3D-scene load; `"Unable to CALCULATE the result"` contains none of
spline/3d/scene and maps to the calculation category; `"Invalid session
DATA"` contains none of the five earlier keywords and maps to the data
category. -/
theorem c7_errorCategory_witness :
    (containsKw "data" ("bad DATA from Spline".data.map Char.toLower) = true ∧
      containsKw "spline" ("bad DATA from Spline".data.map Char.toLower) = true ∧
      getErrorCategory "bad DATA from Spline" = .sceneLoad) ∧
    getErrorCategory "Unable to CALCULATE the result" = .calculation ∧
    getErrorCategory "Invalid session DATA" = .dataIssue :=
  ⟨⟨by decide, by decide,
    c7_errorCategory_spec.2.1 "bad DATA from Spline" (by decide) (by decide)⟩,
   c7_errorCategory_spec.2.2.2.1 "Unable to CALCULATE the result" (by decide)
     (by decide) (by decide) (Or.inl (by decide)),
   c7_errorCategory_spec.2.2.2.2.1 "Invalid session DATA" (by decide)
     (by decide) (by decide) (by decide) (by decide) (Or.inl (by decide))⟩

/-- The eight icon components the archetype-card component imports from its
icon library, as abstract identifiers. -/
inductive ArchetypeIconId where
  | brain
  | heart
  | scale
  | sword
  | lightbulb
  | book
  | star
  | target
deriving DecidableEq

/-- The `icons` record inside `getArchetypeIcon`, as an association list in
source order. -/
def archetypeIcons : List (String × ArchetypeIconId) :=
  [("brain", .brain), ("heart", .heart), ("scale", .scale), ("sword", .sword),
   ("lightbulb", .lightbulb), ("book", .book), ("star", .star),
   ("target", .target)]

/-- Embedding of `getArchetypeIcon`: look the lowercased name up in the
record and fall back to `Brain` when the lookup is undefined
(`icons[iconName.toLowerCase()] || Brain`). -/
def getArchetypeIcon (iconName : String) : ArchetypeIconId :=
  (archetypeIcons.lookup (strToLower iconName)).getD .brain

/-- Claim C9: the icon table maps exactly the eight names brain, heart,
scale, sword, lightbulb, book, star, target; the lookup key is the
lowercased input, so any string whose lowercasing is a mapped name yields
that name's icon (case-insensitive matching); and any string whose
lowercasing is unmapped falls back to the Brain icon, so the lookup result
is always a defined icon. -/
theorem c9_archetypeIcon_spec :
    archetypeIcons.map Prod.fst =
      ["brain", "heart", "scale", "sword", "lightbulb", "book", "star",
        "target"] ∧
    (∀ s : String, archetypeIcons.lookup (strToLower s) = none →
      getArchetypeIcon s = .brain) ∧
    (∀ s : String, ∀ p ∈ archetypeIcons, strToLower s = p.1 →
      getArchetypeIcon s = p.2) := by
  refine ⟨rfl, fun s hnone => ?_, fun s p hp hkey => ?_⟩
  · rw [getArchetypeIcon, hnone]
    rfl
  · rw [getArchetypeIcon, hkey]
    fin_cases hp <;> rfl

/-- Witness for C9: the mixed-case string `"HeArT"` lowercases to the mapped
name `"heart"` and resolves to the Heart icon. -/
theorem c9_archetypeIcon_witness :
    ("heart", ArchetypeIconId.heart) ∈ archetypeIcons ∧
      strToLower "HeArT" = "heart" ∧
      getArchetypeIcon "HeArT" = .heart :=
  ⟨by decide, by decide,
    c9_archetypeIcon_spec.2.2 "HeArT" ("heart", ArchetypeIconId.heart)
      (by decide) (by decide)⟩

/-- One unlock requirement of an archetype (only its display text is used by
the card component). -/
structure UnlockRequirement where
  description : String
deriving DecidableEq

/-- The fields of `PersonaArchetype` the archetype-card component consumes.
`isLocked` is optional in the TypeScript type; `none` models an absent
(`undefined`/`null`) field, which is what the `??` operator tests. -/
structure PersonaArchetype where
  id : String
  name : String
  description : String
  icon : String
  color : String
  isLocked : Option Bool
  unlockRequirements : Option (List UnlockRequirement)
deriving DecidableEq

/-- `const isLocked = archetype.isLocked ?? false` in the card component. -/
def cardIsLocked (archetype : PersonaArchetype) : Bool :=
  archetype.isLocked.getD false

/-- The handler the card attaches to its button:
`onClick={isLocked ? undefined : onClick}`. -/
def cardOnClick {α : Type} (archetype : PersonaArchetype)
    (onClick : Option α) : Option α :=
  if cardIsLocked archetype then none else onClick

/-- The button's `disabled={isLocked}` attribute. -/
def cardDisabled (archetype : PersonaArchetype) : Bool :=
  cardIsLocked archetype

/-- Claim C10: an absent `isLocked` field is treated as unlocked, and for a
locked archetype the card's button is disabled and carries no click handler,
so the caller-supplied `onClick` is never attached (hence never invoked). -/
theorem c10_lockedCard_spec :
    (∀ archetype : PersonaArchetype, archetype.isLocked = none →
      cardIsLocked archetype = false) ∧
    (∀ (α : Type) (archetype : PersonaArchetype) (onClick : Option α),
      cardIsLocked archetype = true →
      cardOnClick archetype onClick = none ∧ cardDisabled archetype = true) := by
  refine ⟨fun archetype h => ?_, fun α archetype onClick h => ⟨?_, ?_⟩⟩
  · rw [cardIsLocked, h]
    rfl
  · rw [cardOnClick, h]
    rfl
  · rw [cardDisabled, h]

/-- A locked archetype with one unlock requirement. -/
def exLockedArchetype : PersonaArchetype :=
  ⟨"analyst", "The Analyst", "Data-driven debater", "brain", "#a3e635",
    some true, some [⟨"Complete 10 sessions"⟩]⟩

/-- Witness for C10: on the concrete locked archetype, with a concrete
caller-supplied handler, the attached handler is `none` and the button is
disabled. -/
theorem c10_lockedCard_witness :
    cardIsLocked exLockedArchetype = true ∧
      cardOnClick exLockedArchetype (some 1) = none ∧
      cardDisabled exLockedArchetype = true :=
  ⟨by decide,
    (c10_lockedCard_spec.2 ℕ exLockedArchetype (some 1) (by decide)).1,
    (c10_lockedCard_spec.2 ℕ exLockedArchetype (some 1) (by decide)).2⟩
